import Mathlib

/-!
Shallow embedding of `scripts/monitor-canary.py` (class `CanaryMonitor`):
the metric-sample data model, the comparative analysis
`analyze_canary_performance`, the monitoring loop `monitor_canary`, and the
process-exit contract of `main`. Python floats are modelled as exact
rationals (every comparison and mean in the claims is over exactly
representable decimal values); the formatted reason strings are modelled as
an inductive `Reason` carrying the numeric payloads that the code
interpolates into each message.
-/

namespace CanaryPy

/-- One entry of `self.canary_metrics` / `self.stable_metrics`: the dict
built by `get_direct_metrics` (`error_rate`, `p95_latency`, `request_rate`,
`cpu_usage`, `memory_usage`, `timestamp`). Timestamps are seconds. -/
structure Metrics where
  error_rate : ℚ
  p95_latency : ℚ
  request_rate : ℚ
  cpu_usage : ℚ
  memory_usage : ℚ
  timestamp : ℚ
  deriving DecidableEq

/-- The `CanaryMonitor` construction state: `__init__` stores the four
configuration values verbatim (the code performs no validation). -/
structure CanaryMonitor where
  duration : ℤ
  error_threshold : ℚ
  latency_threshold : ℚ
  success_threshold : ℚ
  deriving DecidableEq

/-- `CanaryMonitor.__init__`: stores the arguments unconditionally. -/
def CanaryMonitor.init (duration : ℤ) (error_threshold : ℚ)
    (latency_threshold : ℚ) (success_threshold : ℚ) : CanaryMonitor :=
  { duration := duration
    error_threshold := error_threshold
    latency_threshold := latency_threshold
    success_threshold := success_threshold }

/-- The reason messages produced by `analyze_canary_performance`, one
constructor per f-string, carrying the interpolated numeric values. -/
inductive Reason where
  | errorRateExceeds (rate threshold : ℚ)
  | latencyExceeds (latency threshold : ℚ)
  | errorRateRatioHigh (q : ℚ)
  | latencyDeltaHigh (delta : ℚ)
  | allWithinThresholds (success_rate : ℚ)
  | successRateBelow (success_rate threshold : ℚ)
  | insufficientMetricsData
  | noRecentMetricsAvailable
  deriving DecidableEq

/-- The per-cohort averages dict (`canary_avg` / `stable_avg`). -/
structure Aggregates where
  error_rate : ℚ
  p95_latency : ℚ
  request_rate : ℚ
  deriving DecidableEq

/-- The `analysis['comparison']` dict. `error_rate_quotient` models the
code's `error_rate_ratio` entry. -/
structure Comparison where
  error_rate_diff : ℚ
  latency_diff : ℚ
  error_rate_quotient : ℚ
  deriving DecidableEq

/-- The `analysis` dict returned by `analyze_canary_performance`. -/
structure Analysis where
  canary_metrics : Aggregates
  stable_metrics : Aggregates
  comparison : Comparison
  deriving DecidableEq

/-- The `(should_continue, reason, analysis)` tuple: `reasons` lists the
reason messages that the code joins into the single reason string, and
`analysis = none` models the empty dict `{}`. -/
structure AnalyzeResult where
  should_continue : Bool
  reasons : List Reason
  analysis : Option Analysis
  deriving DecidableEq

/-- `statistics.mean` on a nonempty list of values. -/
def listMean (l : List ℚ) : ℚ := l.sum / l.length

/-- The recent-window filter (lines 151-154): keeps the samples with
`m['timestamp'] > datetime.now() - timedelta(minutes=5)` — a strict
comparison — preserving the stored order. -/
def recentWindow (metrics : List Metrics) (now windowSeconds : ℚ) :
    List Metrics :=
  metrics.filter (fun m => now - windowSeconds < m.timestamp)

/-- The averages block (lines 160-170): arithmetic means of the three rate
fields over a window. -/
def aggregatesOf (window : List Metrics) : Aggregates :=
  { error_rate := listMean (window.map Metrics.error_rate)
    p95_latency := listMean (window.map Metrics.p95_latency)
    request_rate := listMean (window.map Metrics.request_rate) }

/-- The `analysis['comparison']` block (lines 179-183); the quotient's
denominator is `max(stable_avg['error_rate'], 0.001)`. -/
def comparisonOf (canary_avg stable_avg : Aggregates) : Comparison :=
  { error_rate_diff := canary_avg.error_rate - stable_avg.error_rate
    latency_diff := canary_avg.p95_latency - stable_avg.p95_latency
    error_rate_quotient :=
      canary_avg.error_rate / max stable_avg.error_rate (1 / 1000) }

/-- The `decision_reasons` accumulation (lines 186-201): four independent
if-checks appending one formatted reason each, in program order. The factor
`2.0` and the delta bound `100` are literals in the code. -/
def decisionReasons (cm : CanaryMonitor) (canary_avg : Aggregates)
    (comp : Comparison) : List Reason :=
  (if cm.error_threshold < canary_avg.error_rate then
    [Reason.errorRateExceeds canary_avg.error_rate cm.error_threshold]
   else []) ++
  (if cm.latency_threshold < canary_avg.p95_latency then
    [Reason.latencyExceeds canary_avg.p95_latency cm.latency_threshold]
   else []) ++
  (if 2 < comp.error_rate_quotient then
    [Reason.errorRateRatioHigh comp.error_rate_quotient]
   else []) ++
  (if 100 < comp.latency_diff then
    [Reason.latencyDeltaHigh comp.latency_diff]
   else [])

/-- The decision tail of `analyze_canary_performance` (lines 159-211) once
both recent windows are known nonempty. -/
def analyzeWindows (cm : CanaryMonitor)
    (recent_canary recent_stable : List Metrics) : AnalyzeResult :=
  let canary_avg := aggregatesOf recent_canary
  let stable_avg := aggregatesOf recent_stable
  let comp := comparisonOf canary_avg stable_avg
  let reasons := decisionReasons cm canary_avg comp
  if reasons.isEmpty then
    let success_rate := 1 - canary_avg.error_rate
    if cm.success_threshold ≤ success_rate then
      { should_continue := true
        reasons := [Reason.allWithinThresholds success_rate]
        analysis := some ⟨canary_avg, stable_avg, comp⟩ }
    else
      { should_continue := false
        reasons := [Reason.successRateBelow success_rate cm.success_threshold]
        analysis := some ⟨canary_avg, stable_avg, comp⟩ }
  else
    { should_continue := false
      reasons := reasons
      analysis := some ⟨canary_avg, stable_avg, comp⟩ }

/-- `analyze_canary_performance` (lines 145-211): empty total stores yield
`(False, "Insufficient metrics data", {})`; empty recent windows yield
`(False, "No recent metrics available", {})`; otherwise the threshold
decision logic runs on the two windows. -/
def analyze_canary_performance (cm : CanaryMonitor)
    (canary_metrics stable_metrics : List Metrics) (now : ℚ) :
    AnalyzeResult :=
  if canary_metrics.isEmpty || stable_metrics.isEmpty then
    { should_continue := false
      reasons := [Reason.insufficientMetricsData]
      analysis := none }
  else
    let recent_canary := recentWindow canary_metrics now 300
    let recent_stable := recentWindow stable_metrics now 300
    if recent_canary.isEmpty || recent_stable.isEmpty then
      { should_continue := false
        reasons := [Reason.noRecentMetricsAvailable]
        analysis := none }
    else
      analyzeWindows cm recent_canary recent_stable

/-- The mutable per-run state that `monitor_canary` threads through its
loop: the two sample stores and the `checks_completed` counter. -/
structure RunState where
  canary_metrics : List Metrics
  stable_metrics : List Metrics
  checks_completed : ℕ
  deriving DecidableEq

/-- The initial state set up in `__init__`: empty stores, zero checks. -/
def initialRunState : RunState :=
  { canary_metrics := [], stable_metrics := [], checks_completed := 0 }

/-- The simulation adjustment applied to a fetched stable sample
(lines 239-241): `error_rate *= 0.8`, `p95_latency *= 0.95`. -/
def adjustStable (m : Metrics) : Metrics :=
  { m with error_rate := m.error_rate * (4 / 5)
           p95_latency := m.p95_latency * (19 / 20) }

/-- One tick's sample collection (lines 231-242): each cohort's fetched
sample is appended to that cohort's store independently, only when its
fetch returned data (`none` models a falsy/empty metrics dict). -/
def commitTick (st : RunState) (canary stable : Option Metrics) : RunState :=
  let st1 :=
    match canary with
    | some m => { st with canary_metrics := st.canary_metrics ++ [m] }
    | none => st
  match stable with
  | some m =>
      { st1 with stable_metrics := st1.stable_metrics ++ [adjustStable m] }
  | none => st1

/-- The environment's behavior at one loop iteration: either the loop body
runs with the two fetch outcomes observed at time `now`, or a
`KeyboardInterrupt` arrives. -/
inductive TickEvent where
  | tick (now : ℚ) (canary stable : Option Metrics)
  | interrupt
  deriving DecidableEq

/-- The `while` loop of `monitor_canary` (lines 226-289) over a finite
schedule of tick events (the schedule length is however many iterations
`datetime.now() < end_time` admits). Each iteration commits the fetched
samples, then — when `checks_completed > 0 and checks_completed % 5 == 0` —
runs the analysis and returns `False` at once on a non-continue verdict;
`KeyboardInterrupt` returns `False` at once. After the schedule is
exhausted the mandatory final analysis at time `finalNow` decides. -/
def monitorLoop (cm : CanaryMonitor) (st : RunState) :
    List TickEvent → ℚ → Bool
  | [], finalNow =>
      (analyze_canary_performance cm st.canary_metrics st.stable_metrics
        finalNow).should_continue
  | TickEvent.interrupt :: _, _ => false
  | TickEvent.tick now canary stable :: rest, finalNow =>
      let st1 := commitTick st canary stable
      if st1.checks_completed > 0 ∧ st1.checks_completed % 5 = 0 then
        let res := analyze_canary_performance cm st1.canary_metrics
          st1.stable_metrics now
        if res.should_continue then
          monitorLoop cm { st1 with checks_completed := st1.checks_completed + 1 }
            rest finalNow
        else false
      else
        monitorLoop cm { st1 with checks_completed := st1.checks_completed + 1 }
          rest finalNow

/-- `monitor_canary` (lines 213-289): run the loop from the initial state. -/
def monitor_canary (cm : CanaryMonitor) (events : List TickEvent)
    (finalNow : ℚ) : Bool :=
  monitorLoop cm initialRunState events finalNow

/-- The label stored in `decision_history` (line 250):
`'continue' if should_continue else 'rollback'`. -/
def decisionLabel (should_continue : Bool) : String :=
  if should_continue then "continue" else "rollback"

/-- The exit contract of `main` (lines 338-343): `exit(0)` on a `True`
result of `monitor_canary`, `exit(1)` otherwise. -/
def mainExitCode (success : Bool) : ℕ :=
  if success then 0 else 1

/-! Concrete inputs used by witnesses and counterexamples. -/

/-- A metrics dict with the simulated constant fields of
`get_direct_metrics` and the given timestamp, error rate and latency. -/
def sampleAt (ts er p95 : ℚ) : Metrics :=
  { error_rate := er, p95_latency := p95, request_rate := 100
    cpu_usage := 65, memory_usage := 70, timestamp := ts }

/-- The default configuration of `main`: error threshold 0.01, latency
threshold 500, success threshold 0.99. -/
def cm0 : CanaryMonitor := CanaryMonitor.init 600 (1/100) 500 (99/100)

/-- A canary store whose window violates no threshold. -/
def contCanary : List Metrics := [sampleAt 900 (1/1000) 400]

/-- A stable store with the same healthy window. -/
def contStable : List Metrics := [sampleAt 900 (1/1000) 400]

/-! Helper lemmas about the analysis. -/

theorem recentWindow_nil (now w : ℚ) : recentWindow [] now w = [] := rfl

theorem analyze_eq_windows (cm : CanaryMonitor) (c s : List Metrics)
    (now : ℚ) (hrc : recentWindow c now 300 ≠ [])
    (hrs : recentWindow s now 300 ≠ []) :
    analyze_canary_performance cm c s now =
      analyzeWindows cm (recentWindow c now 300) (recentWindow s now 300) := by
  have hc0 : c ≠ [] := by
    intro h; exact hrc (by simp [h, recentWindow])
  have hs0 : s ≠ [] := by
    intro h; exact hrs (by simp [h, recentWindow])
  simp [analyze_canary_performance, List.isEmpty_iff, hc0, hs0, hrc, hrs]

/-! Scenario A inputs: five canary samples with error rate 0.005 and p95
latency 450, five stable samples with error rate 0.002 and p95 latency
400, all inside the 5-minute window of `now = 1000`. -/

/-- Scenario A canary store. -/
def scenarioCanary : List Metrics :=
  [sampleAt 900 (1/200) 450, sampleAt 920 (1/200) 450,
   sampleAt 940 (1/200) 450, sampleAt 960 (1/200) 450,
   sampleAt 980 (1/200) 450]

/-- Scenario A stable store. -/
def scenarioStable : List Metrics :=
  [sampleAt 900 (1/500) 400, sampleAt 920 (1/500) 400,
   sampleAt 940 (1/500) 400, sampleAt 960 (1/500) 400,
   sampleAt 980 (1/500) 400]

/-- C3: on Scenario A — canary mean error rate 0.005 and mean p95 latency
450 over 5 samples, stable mean error rate 0.002 and mean p95 latency 400
over 5 samples, thresholds error_rate_max 0.01, latency_ms_max 500,
success_rate_min 0.99 (ratio factor 2.0 and latency delta bound 100 fixed
in the code) — the analysis returns the non-continue (rollback) verdict,
the computed error-rate ratio is 2.5, and the reasons list has exactly one
entry, the one citing the ratio. -/
theorem C3_scenario_a :
    analyze_canary_performance cm0 scenarioCanary scenarioStable 1000 =
      { should_continue := false
        reasons := [Reason.errorRateRatioHigh (5/2)]
        analysis := some
          { canary_metrics := ⟨1/200, 450, 100⟩
            stable_metrics := ⟨1/500, 400, 100⟩
            comparison := ⟨3/1000, 50, 5/2⟩ } } := by
  norm_num [analyze_canary_performance, scenarioCanary, scenarioStable, cm0,
    CanaryMonitor.init, sampleAt, recentWindow, analyzeWindows, aggregatesOf,
    comparisonOf, decisionReasons, listMean, List.filter]

theorem analyzeWindows_analysis (cm : CanaryMonitor) (rc rs : List Metrics) :
    (analyzeWindows cm rc rs).analysis =
      some ⟨aggregatesOf rc, aggregatesOf rs,
            comparisonOf (aggregatesOf rc) (aggregatesOf rs)⟩ := by
  unfold analyzeWindows
  dsimp only
  split <;> try split
  all_goals rfl

/-- C7: for every pair of nonempty recent windows, the analysis dict is
present and its error-rate ratio equals the canary mean error rate divided
by `max(stable mean error rate, 0.001)`; in particular, when the stable
mean error rate is 0 the denominator is exactly the epsilon 0.001, so the
division is never by zero. -/
theorem C7_ratio_epsilon (cm : CanaryMonitor) (c s : List Metrics) (now : ℚ)
    (hrc : recentWindow c now 300 ≠ []) (hrs : recentWindow s now 300 ≠ []) :
    (analyze_canary_performance cm c s now).analysis =
      some ⟨aggregatesOf (recentWindow c now 300),
            aggregatesOf (recentWindow s now 300),
            comparisonOf (aggregatesOf (recentWindow c now 300))
              (aggregatesOf (recentWindow s now 300))⟩ ∧
    (comparisonOf (aggregatesOf (recentWindow c now 300))
        (aggregatesOf (recentWindow s now 300))).error_rate_quotient =
      (aggregatesOf (recentWindow c now 300)).error_rate /
        max (aggregatesOf (recentWindow s now 300)).error_rate (1/1000) ∧
    ((aggregatesOf (recentWindow s now 300)).error_rate = 0 →
      (comparisonOf (aggregatesOf (recentWindow c now 300))
          (aggregatesOf (recentWindow s now 300))).error_rate_quotient =
        (aggregatesOf (recentWindow c now 300)).error_rate / (1/1000)) := by
  rw [analyze_eq_windows cm c s now hrc hrs]
  refine ⟨analyzeWindows_analysis cm _ _, rfl, fun h0 => ?_⟩
  simp only [comparisonOf, h0]
  norm_num

/-- A stable store whose only window sample has error rate exactly 0. -/
def zeroStable : List Metrics := [sampleAt 900 0 400]

/-- C7 witness: the epsilon denominator at a concrete input with a
zero stable error rate. -/
theorem C7_ratio_epsilon_witness :
    (analyze_canary_performance cm0 contCanary zeroStable 1000).analysis =
      some ⟨aggregatesOf (recentWindow contCanary 1000 300),
            aggregatesOf (recentWindow zeroStable 1000 300),
            comparisonOf (aggregatesOf (recentWindow contCanary 1000 300))
              (aggregatesOf (recentWindow zeroStable 1000 300))⟩ ∧
    (comparisonOf (aggregatesOf (recentWindow contCanary 1000 300))
        (aggregatesOf (recentWindow zeroStable 1000 300))).error_rate_quotient =
      (aggregatesOf (recentWindow contCanary 1000 300)).error_rate /
        max (aggregatesOf (recentWindow zeroStable 1000 300)).error_rate (1/1000) ∧
    ((aggregatesOf (recentWindow zeroStable 1000 300)).error_rate = 0 →
      (comparisonOf (aggregatesOf (recentWindow contCanary 1000 300))
          (aggregatesOf (recentWindow zeroStable 1000 300))).error_rate_quotient =
        (aggregatesOf (recentWindow contCanary 1000 300)).error_rate / (1/1000)) :=
  C7_ratio_epsilon cm0 contCanary zeroStable 1000
    (by norm_num [recentWindow, contCanary, sampleAt, List.filter])
    (by norm_num [recentWindow, zeroStable, sampleAt, List.filter])

/-- Modelled from the spec: the four threshold conditions (a)-(d) as an
ordered list of (condition, reason) pairs — (a) canary mean error rate
above `error_rate_max`, (b) canary mean p95 latency above `latency_ms_max`,
(c) error-rate ratio above the alarm factor 2.0, (d) latency difference
above the alarm bound 100 ms. -/
def specConditionList (cm : CanaryMonitor) (canary_avg : Aggregates)
    (comp : Comparison) : List (Bool × Reason) :=
  [ (decide (cm.error_threshold < canary_avg.error_rate),
      Reason.errorRateExceeds canary_avg.error_rate cm.error_threshold),
    (decide (cm.latency_threshold < canary_avg.p95_latency),
      Reason.latencyExceeds canary_avg.p95_latency cm.latency_threshold),
    (decide ((2:ℚ) < comp.error_rate_quotient),
      Reason.errorRateRatioHigh comp.error_rate_quotient),
    (decide ((100:ℚ) < comp.latency_diff),
      Reason.latencyDeltaHigh comp.latency_diff) ]

/-- Modelled from the spec: evaluate the conditions in their fixed order,
appending one reason per failed condition. -/
def specOrderedReasons (cm : CanaryMonitor) (canary_avg : Aggregates)
    (comp : Comparison) : List Reason :=
  ((specConditionList cm canary_avg comp).filter Prod.fst).map Prod.snd

theorem decisionReasons_eq_spec (cm : CanaryMonitor) (canary_avg : Aggregates)
    (comp : Comparison) :
    decisionReasons cm canary_avg comp =
      specOrderedReasons cm canary_avg comp := by
  simp only [decisionReasons, specOrderedReasons, specConditionList]
  by_cases h1 : cm.error_threshold < canary_avg.error_rate <;>
    by_cases h2 : cm.latency_threshold < canary_avg.p95_latency <;>
      by_cases h3 : (2:ℚ) < comp.error_rate_quotient <;>
        by_cases h4 : (100:ℚ) < comp.latency_diff <;>
          simp [h1, h2, h3, h4, List.filter]

/-- C2: for every pair of nonempty recent windows and every stored
configuration, the code evaluates the spec's four conditions in their fixed
order (the ratio factor 2.0 and the latency delta bound 100 are literals in
the code, equal to the spec's defaults): whenever at least one condition
fails the verdict is the non-continue (rollback) one with exactly the
ordered reasons of the failed conditions — regardless of the success rate;
only when no condition fails is the success-rate check consulted, deciding
continue versus rollback with the corresponding single reason. -/
theorem C2_fixed_order_conditions (cm : CanaryMonitor) (c s : List Metrics)
    (now : ℚ) (hrc : recentWindow c now 300 ≠ [])
    (hrs : recentWindow s now 300 ≠ []) :
    (specOrderedReasons cm (aggregatesOf (recentWindow c now 300))
        (comparisonOf (aggregatesOf (recentWindow c now 300))
          (aggregatesOf (recentWindow s now 300))) ≠ [] →
      (analyze_canary_performance cm c s now).should_continue = false ∧
      (analyze_canary_performance cm c s now).reasons =
        specOrderedReasons cm (aggregatesOf (recentWindow c now 300))
          (comparisonOf (aggregatesOf (recentWindow c now 300))
            (aggregatesOf (recentWindow s now 300)))) ∧
    (specOrderedReasons cm (aggregatesOf (recentWindow c now 300))
        (comparisonOf (aggregatesOf (recentWindow c now 300))
          (aggregatesOf (recentWindow s now 300))) = [] →
      (analyze_canary_performance cm c s now).should_continue =
        decide (cm.success_threshold ≤
          1 - (aggregatesOf (recentWindow c now 300)).error_rate) ∧
      (analyze_canary_performance cm c s now).reasons =
        (if cm.success_threshold ≤
            1 - (aggregatesOf (recentWindow c now 300)).error_rate then
          [Reason.allWithinThresholds
            (1 - (aggregatesOf (recentWindow c now 300)).error_rate)]
        else
          [Reason.successRateBelow
            (1 - (aggregatesOf (recentWindow c now 300)).error_rate)
            cm.success_threshold])) := by
  rw [analyze_eq_windows cm c s now hrc hrs]
  unfold analyzeWindows
  dsimp only
  rw [decisionReasons_eq_spec]
  constructor
  · intro hne
    rw [if_neg (by simpa [List.isEmpty_iff] using hne)]
    exact ⟨rfl, rfl⟩
  · intro heq
    rw [if_pos (by simpa [List.isEmpty_iff] using heq)]
    by_cases hs : cm.success_threshold ≤
        1 - (aggregatesOf (recentWindow c now 300)).error_rate
    · rw [if_pos hs, if_pos hs]
      exact ⟨by simp [hs], rfl⟩
    · rw [if_neg hs, if_neg hs]
      exact ⟨by simp [hs], rfl⟩

/-- C2 witness: on Scenario A only condition (c) fails, and it forces the
rollback verdict even though the success rate 0.995 clears the 0.99
threshold. -/
theorem C2_fixed_order_conditions_witness :
    (analyze_canary_performance cm0 scenarioCanary scenarioStable 1000).should_continue
        = false ∧
    (analyze_canary_performance cm0 scenarioCanary scenarioStable 1000).reasons =
      specOrderedReasons cm0
        (aggregatesOf (recentWindow scenarioCanary 1000 300))
        (comparisonOf (aggregatesOf (recentWindow scenarioCanary 1000 300))
          (aggregatesOf (recentWindow scenarioStable 1000 300))) :=
  (C2_fixed_order_conditions cm0 scenarioCanary scenarioStable 1000
      (by norm_num [recentWindow, scenarioCanary, sampleAt, List.filter,
        List.cons_ne_nil])
      (by norm_num [recentWindow, scenarioStable, sampleAt, List.filter,
        List.cons_ne_nil])).1
    (by norm_num [specOrderedReasons, specConditionList, recentWindow,
      scenarioCanary, scenarioStable, sampleAt, List.filter, aggregatesOf,
      comparisonOf, listMean, cm0, CanaryMonitor.init])

theorem contResult_eq :
    analyze_canary_performance cm0 contCanary contStable 1000 =
      ⟨true, [Reason.allWithinThresholds (999/1000)],
       some ⟨⟨1/1000, 400, 100⟩, ⟨1/1000, 400, 100⟩, ⟨0, 0, 1⟩⟩⟩ := by
  norm_num [analyze_canary_performance, contCanary, contStable, cm0,
    CanaryMonitor.init, sampleAt, recentWindow, analyzeWindows, aggregatesOf,
    comparisonOf, decisionReasons, listMean, List.filter]

/-- C1 counterexample: the zero-sample result and a threshold rollback both
return the verdict value `false`, and the decision-history label for the
zero-sample result is the string "rollback" — the insufficient-data outcome
is conflated with the rollback outcome, not reported distinctly. -/
theorem C1_counterexample :
    (analyze_canary_performance cm0 [] [] 0).should_continue = false ∧
    (analyze_canary_performance cm0 [] [] 0).reasons =
      [Reason.insufficientMetricsData] ∧
    decisionLabel (analyze_canary_performance cm0 [] [] 0).should_continue =
      "rollback" ∧
    (analyze_canary_performance cm0 scenarioCanary scenarioStable
      1000).should_continue = false ∧
    decisionLabel (analyze_canary_performance cm0 [] [] 0).should_continue =
      decisionLabel (analyze_canary_performance cm0 scenarioCanary
        scenarioStable 1000).should_continue := by
  have h : (analyze_canary_performance cm0 scenarioCanary scenarioStable
      1000).should_continue = false := by
    norm_num [analyze_canary_performance, scenarioCanary, scenarioStable, cm0,
      CanaryMonitor.init, sampleAt, recentWindow, analyzeWindows, aggregatesOf,
      comparisonOf, decisionReasons, listMean, List.filter]
  exact ⟨rfl, rfl, rfl, h, by rw [h]; rfl⟩

/-- C1 (corrected): windows with zero samples make the analysis return the
`false` verdict with reason "insufficient metrics data" (or "no recent
metrics available" when samples exist but none fall in the window) and an
empty analysis dict, regardless of thresholds; however that verdict is the
same `false` a rollback returns, and the decision-history label for it is
"rollback" — the outcome is distinguished only by its reason string. -/
theorem C1_zero_samples (cm : CanaryMonitor) (c s : List Metrics) (now : ℚ) :
    (c = [] ∨ s = [] →
      analyze_canary_performance cm c s now =
        ⟨false, [Reason.insufficientMetricsData], none⟩) ∧
    (c ≠ [] → s ≠ [] →
      recentWindow c now 300 = [] ∨ recentWindow s now 300 = [] →
      analyze_canary_performance cm c s now =
        ⟨false, [Reason.noRecentMetricsAvailable], none⟩) ∧
    ((c = [] ∨ s = []) →
      decisionLabel (analyze_canary_performance cm c s now).should_continue =
        "rollback") := by
  have h1 : c = [] ∨ s = [] →
      analyze_canary_performance cm c s now =
        ⟨false, [Reason.insufficientMetricsData], none⟩ := by
    intro h
    rcases h with h | h <;> simp [analyze_canary_performance, h]
  refine ⟨h1, ?_, fun h => by rw [h1 h]; rfl⟩
  intro hc hs hw
  have hc' : c.isEmpty = false := by simp [List.isEmpty_iff, hc]
  have hs' : s.isEmpty = false := by simp [List.isEmpty_iff, hs]
  have hw' : ((recentWindow c now 300).isEmpty ||
      (recentWindow s now 300).isEmpty) = true := by
    rcases hw with h | h <;> simp [h]
  simp [analyze_canary_performance, hc', hs', hw']

/-- C1 witness: the empty-store case and the stale-samples case at concrete
inputs. -/
theorem C1_zero_samples_witness :
    analyze_canary_performance cm0 [] contStable 0 =
      ⟨false, [Reason.insufficientMetricsData], none⟩ ∧
    decisionLabel
      (analyze_canary_performance cm0 [] contStable 0).should_continue =
      "rollback" ∧
    analyze_canary_performance cm0 contCanary contStable 10000 =
      ⟨false, [Reason.noRecentMetricsAvailable], none⟩ :=
  ⟨(C1_zero_samples cm0 [] contStable 0).1 (Or.inl rfl),
   (C1_zero_samples cm0 [] contStable 0).2.2 (Or.inl rfl),
   (C1_zero_samples cm0 contCanary contStable 10000).2.1
     (by simp [contCanary]) (by simp [contStable])
     (Or.inl (by norm_num [recentWindow, contCanary, sampleAt, List.filter]))⟩

/-- C4 counterexample: a healthy pair of windows yields the continue
verdict together with a nonempty reasons list (the success-rate message),
refuting "reasons is empty iff the verdict is CONTINUE". -/
theorem C4_counterexample :
    (analyze_canary_performance cm0 contCanary contStable
      1000).should_continue = true ∧
    (analyze_canary_performance cm0 contCanary contStable 1000).reasons
      ≠ [] := by
  rw [contResult_eq]
  exact ⟨rfl, by simp⟩

/-- C4 (corrected): the reasons list of an analysis result is never empty —
every branch of the code attaches at least one reason — and a continue
verdict carries exactly one reason, the success-rate message. -/
theorem C4_reasons_nonempty (cm : CanaryMonitor) (c s : List Metrics)
    (now : ℚ) :
    (analyze_canary_performance cm c s now).reasons ≠ [] ∧
    ((analyze_canary_performance cm c s now).should_continue = true →
      (analyze_canary_performance cm c s now).reasons =
        [Reason.allWithinThresholds
          (1 - (aggregatesOf (recentWindow c now 300)).error_rate)]) := by
  unfold analyze_canary_performance
  dsimp only
  split
  · exact ⟨by simp, by simp⟩
  · split
    · exact ⟨by simp, by simp⟩
    · unfold analyzeWindows
      dsimp only
      split
      · split
        · exact ⟨by simp, fun _ => rfl⟩
        · exact ⟨by simp, by simp⟩
      · next h =>
          exact ⟨by simpa [List.isEmpty_iff] using h, by simp⟩

/-- C4 witness: the continue case at a concrete input. -/
theorem C4_reasons_nonempty_witness :
    (analyze_canary_performance cm0 contCanary contStable 1000).reasons
      ≠ [] ∧
    (analyze_canary_performance cm0 contCanary contStable 1000).reasons =
      [Reason.allWithinThresholds
        (1 - (aggregatesOf (recentWindow contCanary 1000 300)).error_rate)] :=
  ⟨(C4_reasons_nonempty cm0 contCanary contStable 1000).1,
   (C4_reasons_nonempty cm0 contCanary contStable 1000).2
     (by rw [contResult_eq])⟩

/-- Modelled from the spec: the validity predicate the spec claims is
enforced at construction — rate-valued thresholds in [0, 1] and all
thresholds strictly positive. -/
def specValidThresholds (cm : CanaryMonitor) : Prop :=
  0 ≤ cm.error_threshold ∧ cm.error_threshold ≤ 1 ∧
  0 ≤ cm.success_threshold ∧ cm.success_threshold ≤ 1 ∧
  0 < cm.error_threshold ∧ 0 < cm.latency_threshold ∧
  0 < cm.success_threshold

/-- A configuration with an out-of-range error-rate threshold. -/
def invalidMonitor : CanaryMonitor := CanaryMonitor.init 600 2 500 (99/100)

/-- C5 counterexample: a configuration whose error-rate threshold 2 lies
outside [0, 1] is constructed without any rejection, stores the invalid
value verbatim, and the analysis runs with it. -/
theorem C5_counterexample :
    ¬ specValidThresholds invalidMonitor ∧
    invalidMonitor =
      { duration := 600, error_threshold := 2, latency_threshold := 500,
        success_threshold := 99/100 } ∧
    (analyze_canary_performance invalidMonitor contCanary contStable
      1000).should_continue = true := by
  refine ⟨?_, rfl, ?_⟩
  · intro h
    exact absurd h.2.1 (by norm_num [invalidMonitor, CanaryMonitor.init])
  · norm_num [analyze_canary_performance, contCanary, contStable,
      invalidMonitor, CanaryMonitor.init, sampleAt, recentWindow,
      analyzeWindows, aggregatesOf, comparisonOf, decisionReasons, listMean,
      List.filter]

/-- C5 (corrected): `__init__` validates nothing — every configuration,
valid or not, is stored verbatim and the monitor is constructed. -/
theorem C5_no_validation (d : ℤ) (et lt st : ℚ) :
    (CanaryMonitor.init d et lt st).duration = d ∧
    (CanaryMonitor.init d et lt st).error_threshold = et ∧
    (CanaryMonitor.init d et lt st).latency_threshold = lt ∧
    (CanaryMonitor.init d et lt st).success_threshold = st :=
  ⟨rfl, rfl, rfl, rfl⟩

/-- C6 counterexample: a sample stamped exactly `now - window_duration` is
excluded from the recent window — the code's comparison is strict, not
inclusive. -/
theorem C6_counterexample :
    (sampleAt 700 (1/1000) 400).timestamp = 1000 - 300 ∧
    recentWindow [sampleAt 700 (1/1000) 400] 1000 300 = [] := by
  constructor
  · norm_num [sampleAt]
  · norm_num [recentWindow, sampleAt, List.filter]

/-- C6 (corrected): the recent-window query returns exactly the samples
with timestamp strictly greater than `now - window_duration` (the boundary
timestamp is excluded), as a subsequence of the store, preserving the
store's chronological order. -/
theorem C6_recent_window_strict (l : List Metrics) (now w : ℚ) (m : Metrics)
    (hsorted : l.Pairwise (fun a b => a.timestamp ≤ b.timestamp)) :
    (m ∈ recentWindow l now w ↔ m ∈ l ∧ now - w < m.timestamp) ∧
    (recentWindow l now w).Sublist l ∧
    (recentWindow l now w).Pairwise (fun a b => a.timestamp ≤ b.timestamp) := by
  refine ⟨?_, List.filter_sublist l, hsorted.sublist (List.filter_sublist l)⟩
  simp [recentWindow, List.mem_filter]

/-- A chronologically ordered two-sample store. -/
def wlist : List Metrics :=
  [sampleAt 800 (1/1000) 400, sampleAt 900 (1/1000) 400]

/-- C6 witness: the window characterization on a concrete sorted store. -/
theorem C6_recent_window_strict_witness :
    (sampleAt 800 (1/1000) 400 ∈ recentWindow wlist 1000 300 ↔
      sampleAt 800 (1/1000) 400 ∈ wlist ∧
        (1000:ℚ) - 300 < (sampleAt 800 (1/1000) 400).timestamp) ∧
    (recentWindow wlist 1000 300).Sublist wlist ∧
    (recentWindow wlist 1000 300).Pairwise
      (fun a b => a.timestamp ≤ b.timestamp) :=
  C6_recent_window_strict wlist 1000 300 (sampleAt 800 (1/1000) 400)
    (by norm_num [wlist, sampleAt, List.pairwise_cons])

/-- C8 counterexample: a tick whose canary fetch succeeded while the stable
fetch failed commits the canary sample alone — the committed state has one
cohort's store ahead of the other for that tick. -/
theorem C8_counterexample :
    (commitTick initialRunState (some (sampleAt 0 (1/200) 450))
      none).canary_metrics.length = 1 ∧
    (commitTick initialRunState (some (sampleAt 0 (1/200) 450))
      none).stable_metrics.length = 0 :=
  ⟨rfl, rfl⟩

/-- C8 (corrected): the two per-tick commits are independent, not atomic:
each cohort's store gains exactly its own fetched sample when that fetch
returned data (the stable one after the simulation adjustment), regardless
of the other fetch's outcome. -/
theorem C8_independent_commit (st : RunState) (canary stable : Option Metrics) :
    (commitTick st canary stable).canary_metrics =
      st.canary_metrics ++ canary.toList ∧
    (commitTick st canary stable).stable_metrics =
      st.stable_metrics ++ (stable.map adjustStable).toList ∧
    (commitTick st canary stable).checks_completed = st.checks_completed := by
  cases canary <;> cases stable <;> simp [commitTick]

/-- A one-tick schedule whose canary sample violates the error-rate
threshold, so the mandatory final analysis decides rollback. -/
def rollbackEvents : List TickEvent :=
  [TickEvent.tick 0 (some (sampleAt 0 (1/2) 450))
    (some (sampleAt 0 (1/500) 400))]

/-- C9 counterexample: an interrupted run and a run that decided rollback
return the same `false` and the same exit code — a caller cannot
distinguish an interruption from a rollback decision. -/
theorem C9_counterexample :
    monitor_canary cm0 [TickEvent.interrupt] 0 = false ∧
    monitor_canary cm0 rollbackEvents 10 = false ∧
    monitor_canary cm0 [TickEvent.interrupt] 0 =
      monitor_canary cm0 rollbackEvents 10 ∧
    mainExitCode (monitor_canary cm0 [TickEvent.interrupt] 0) =
      mainExitCode (monitor_canary cm0 rollbackEvents 10) := by
  have h : monitor_canary cm0 rollbackEvents 10 = false := by
    norm_num [monitor_canary, monitorLoop, initialRunState, commitTick,
      adjustStable, rollbackEvents, analyze_canary_performance,
      analyzeWindows, aggregatesOf, comparisonOf, decisionReasons, listMean,
      recentWindow, List.filter, sampleAt, cm0, CanaryMonitor.init]
  exact ⟨rfl, h, by rw [h]; exact rfl, by rw [h]; exact rfl⟩

/-- C9 (corrected): a KeyboardInterrupt terminates the loop at once with
`false` — the remaining schedule is never executed and success is never
reported — but that result and its exit code 1 are exactly those of a
rollback run, so the interruption is not reported distinctly. -/
theorem C9_interrupt_terminates (cm : CanaryMonitor) (st : RunState)
    (rest : List TickEvent) (finalNow : ℚ) :
    monitorLoop cm st (TickEvent.interrupt :: rest) finalNow = false ∧
    mainExitCode (monitorLoop cm st (TickEvent.interrupt :: rest) finalNow)
      = 1 :=
  ⟨rfl, rfl⟩

/-- Whether the `while` loop of `monitor_canary` exhausts its schedule and
reaches the mandatory final analysis of line 280 (`true`), or instead
returns early — at an interim non-continue verdict (lines 258-260) or on a
KeyboardInterrupt (lines 272-274) — without ever running it (`false`).
Mirrors `monitorLoop` branch for branch. -/
def monitorLoopReachesFinal (cm : CanaryMonitor) (st : RunState) :
    List TickEvent → Bool
  | [] => true
  | TickEvent.interrupt :: _ => false
  | TickEvent.tick now canary stable :: rest =>
      let st1 := commitTick st canary stable
      if st1.checks_completed > 0 ∧ st1.checks_completed % 5 = 0 then
        if (analyze_canary_performance cm st1.canary_metrics
            st1.stable_metrics now).should_continue then
          monitorLoopReachesFinal cm
            { st1 with checks_completed := st1.checks_completed + 1 } rest
        else false
      else
        monitorLoopReachesFinal cm
          { st1 with checks_completed := st1.checks_completed + 1 } rest

theorem monitorLoop_all_fail (cm : CanaryMonitor) (finalNow : ℚ) :
    ∀ events : List TickEvent,
      (∀ e ∈ events, ∃ now, e = TickEvent.tick now none none) →
      ∀ n : ℕ, monitorLoop cm ⟨[], [], n⟩ events finalNow = false := by
  intro events
  induction events with
  | nil =>
      intro _ n
      simp [monitorLoop, analyze_canary_performance]
  | cons e rest ih =>
      intro h n
      obtain ⟨now, rfl⟩ := h e (by simp)
      have hrest : ∀ e ∈ rest, ∃ now, e = TickEvent.tick now none none :=
        fun e he => h e (by simp [he])
      show monitorLoop cm ⟨[], [], n⟩
        (TickEvent.tick now none none :: rest) finalNow = false
      rw [monitorLoop]
      dsimp only [commitTick]
      split
      · simp [analyze_canary_performance]
      · exact ih hrest (n + 1)

theorem reachesFinal_all_fail_false (cm : CanaryMonitor) :
    ∀ events : List TickEvent,
      (∀ e ∈ events, ∃ now, e = TickEvent.tick now none none) →
      ∀ n : ℕ, (∃ i, i < events.length ∧ 0 < n + i ∧ (n + i) % 5 = 0) →
        monitorLoopReachesFinal cm ⟨[], [], n⟩ events = false := by
  intro events
  induction events with
  | nil =>
      intro _ n hex
      obtain ⟨i, hi, _⟩ := hex
      simp at hi
  | cons e rest ih =>
      intro h n hex
      obtain ⟨now, rfl⟩ := h e (by simp)
      have hrest : ∀ e ∈ rest, ∃ now, e = TickEvent.tick now none none :=
        fun e he => h e (by simp [he])
      rw [monitorLoopReachesFinal]
      dsimp only [commitTick]
      split
      · next hcond => simp [analyze_canary_performance]
      · next hcond =>
          apply ih hrest (n + 1)
          obtain ⟨i, hi, hpos, hmod⟩ := hex
          rcases i with _ | j
          · exact absurd ⟨by omega, by omega⟩ hcond
          · refine ⟨j, ?_, by omega, by omega⟩
            simpa using hi

/-- A ten-tick schedule (duration 300, interval 30) on which every fetch
fails. -/
def failTicks : List TickEvent :=
  [TickEvent.tick 0 none none, TickEvent.tick 30 none none,
   TickEvent.tick 60 none none, TickEvent.tick 90 none none,
   TickEvent.tick 120 none none, TickEvent.tick 150 none none,
   TickEvent.tick 180 none none, TickEvent.tick 210 none none,
   TickEvent.tick 240 none none, TickEvent.tick 270 none none]

/-- C10 counterexample: on Scenario C's schedule (duration 300, interval
30, every fetch failing) the run does return `false`, but the loop exits at
the first interim analysis (`checks_completed == 5`) — the mandatory final
analysis of line 280 is never reached, so the `false` is not the final
analysis's outcome as the claim states. -/
theorem C10_counterexample :
    monitorLoopReachesFinal cm0 initialRunState failTicks = false ∧
    monitor_canary cm0 failTicks 300 = false := by
  constructor <;> exact rfl

/-- C10 (corrected): a run in which every per-tick fetch fails collects
zero samples, so it can never end in a promotion: the result is `false` and
the process exit is nonzero; however, on any such schedule of at least six
ticks the `false` comes from the first interim analysis at
`checks_completed == 5` — the loop terminates early and the mandatory final
analysis is never reached. -/
theorem C10_no_data_never_promotes (cm : CanaryMonitor)
    (events : List TickEvent) (finalNow : ℚ)
    (h : ∀ e ∈ events, ∃ now, e = TickEvent.tick now none none) :
    monitor_canary cm events finalNow = false ∧
    mainExitCode (monitor_canary cm events finalNow) ≠ 0 ∧
    (6 ≤ events.length →
      monitorLoopReachesFinal cm initialRunState events = false) := by
  have hres : monitor_canary cm events finalNow = false :=
    monitorLoop_all_fail cm finalNow events h 0
  refine ⟨hres, by rw [hres]; simp [mainExitCode], fun hlen => ?_⟩
  exact reachesFinal_all_fail_false cm events h 0 ⟨5, by omega, by omega, by omega⟩

/-- C10 witness: Scenario C — every fetch failing for the whole duration
ends in the non-promoting exit without reaching the final analysis. -/
theorem C10_no_data_never_promotes_witness :
    monitor_canary cm0 failTicks 300 = false ∧
    mainExitCode (monitor_canary cm0 failTicks 300) ≠ 0 ∧
    monitorLoopReachesFinal cm0 initialRunState failTicks = false := by
  have h : ∀ e ∈ failTicks, ∃ now, e = TickEvent.tick now none none := by
    intro e he
    simp only [failTicks, List.mem_cons, List.not_mem_nil, or_false] at he
    rcases he with rfl | rfl | rfl | rfl | rfl | rfl | rfl | rfl | rfl | rfl <;>
      exact ⟨_, rfl⟩
  obtain ⟨h1, h2, h3⟩ := C10_no_data_never_promotes cm0 failTicks 300 h
  exact ⟨h1, h2, h3 (by simp [failTicks])⟩

end CanaryPy
